import Mathlib

/-!
Shallow embedding of `src/app.py` (a FastAPI medical-appointment backend).

Modelling conventions:
- The Python dicts `patients_db` and `doctors_db` are insertion-ordered
  maps; they are embedded as association lists `List (Int × _)` where
  insertion of a fresh key appends at the end and insertion of a present
  key replaces the value in place, matching Python dict semantics.
- `appointments_db` is a Python list of dicts produced by
  `Appointment(...).dict()`; such a dict has exactly the keys
  `patient_id`, `doctor_id`, `date`.  The lifecycle endpoints read
  `app["id"]`, a key that may be absent, so the stored record is embedded
  with an extra `id : Option Int` field: `none` means the key is absent
  and reading it raises `KeyError`.
- `datetime.now()` is an ambient-clock read; it is passed in as the
  explicit argument `now : Nat`.
- Python `float` fields (`weight`, `height`) are embedded as `Rat`; no
  claim depends on floating-point arithmetic, only on record storage.
- Each endpoint returns `Except Err (payload)`; an `Err.httpException`
  models a raised `fastapi.HTTPException`, and `Err.keyError` models an
  uncaught Python `KeyError` (surfaced by the framework as HTTP 500).
  Every error in the source is raised before any mutation, so an error
  result always leaves the state unchanged; the embedding makes this
  structural by returning the successor state only in the `ok` payload.
- `doctor.is_available` is `Optional[bool] = True` in the source, so it
  is embedded as `Option Bool`; Python truthiness of such a value is
  `pyTruthy` below (`None` and `False` are both falsy).
-/

/-- Patient record body (the six fields of the pydantic `Patient` model). -/
structure Patient where
  name : String
  age : Int
  sex : String
  weight : Rat
  height : Rat
  phone : String
deriving DecidableEq, Repr

/-- Doctor record body (the four fields of the pydantic `Doctor` model);
`is_available` is `Optional[bool]` with default `True` in the source. -/
structure Doctor where
  name : String
  specialization : String
  phone : String
  is_available : Option Bool := some true
deriving DecidableEq, Repr

/-- A stored appointment dict.  `create_appointment` stores exactly the keys
`patient_id`, `doctor_id`, `date`; the `id` field models the possibly-absent
`"id"` key that `complete_appointment` and `cancel_appointment` read
(`none` = key absent, so reading it raises `KeyError`). -/
structure Appt where
  patient_id : Int
  doctor_id : Int
  date : Nat
  id : Option Int := none
deriving DecidableEq, Repr

/-- Errors an endpoint can surface: a raised `HTTPException` with its status
code and detail string, or an uncaught Python `KeyError` (HTTP 500). -/
inductive Err where
  | httpException (status : Nat) (detail : String)
  | keyError
deriving DecidableEq, Repr

/-- Python truthiness of an `Optional[bool]` value: `None` and `False` are
falsy, `True` is truthy. -/
def pyTruthy : Option Bool → Bool
  | none => false
  | some b => b

/-- Lookup in a Python dict embedded as an association list
(`db.get(k)` / membership test for `db[k]`). -/
def dictGet (k : Int) : List (Int × α) → Option α
  | [] => none
  | (k', v) :: rest => if k' = k then some v else dictGet k rest

/-- Insertion `db[k] = v` into a Python dict: replaces in place when the key
is present, appends at the end when it is fresh. -/
def dictInsert (k : Int) (v : α) : List (Int × α) → List (Int × α)
  | [] => [(k, v)]
  | (k', v') :: rest => if k' = k then (k, v) :: rest else (k', v') :: dictInsert k v rest

/-- Deletion `del db[k]` of a present key from a Python dict. -/
def dictDelete (k : Int) : List (Int × α) → List (Int × α)
  | [] => []
  | (k', v) :: rest => if k' = k then rest else (k', v) :: dictDelete k rest

/-- The in-place field write `doctors_db[k]["is_available"] = b` for a key
known to be present. -/
def dictSetAvail (k : Int) (b : Bool) : List (Int × Doctor) → List (Int × Doctor)
  | [] => []
  | (k', d) :: rest =>
      if k' = k then (k', { d with is_available := some b }) :: rest
      else (k', d) :: dictSetAvail k b rest

/-- Python `list.remove(x)`: drop the first element equal to `x`. -/
def listRemove (a : Appt) : List Appt → List Appt
  | [] => []
  | b :: rest => if b = a then rest else b :: listRemove a rest

/-- The process-wide in-memory state: the three module-level collections of
`src/app.py`. -/
structure AppState where
  patients_db : List (Int × Patient)
  doctors_db : List (Int × Doctor)
  appointments_db : List Appt
deriving DecidableEq, Repr

/-- The empty-at-start state. -/
def emptyState : AppState := ⟨[], [], []⟩

/-- POST `/patients`: assigns `patient_id = len(patients_db) + 1` and stores
the record; returns the message and the assigned id. -/
def create_patient (patient : Patient) (s : AppState) :
    Except Err (String × Int × AppState) :=
  let patient_id : Int := (s.patients_db.length : Int) + 1
  .ok ("Patient created successfully", patient_id,
    { s with patients_db := dictInsert patient_id patient s.patients_db })

/-- PUT `/patients/{patient_id}`: `patients_db[patient_id].update(patient.dict())`
replaces every field of the stored record (the model has exactly those six
keys); accessing an absent key raises `KeyError`. -/
def update_patient (patient_id : Int) (patient : Patient) (s : AppState) :
    Except Err (String × AppState) :=
  match dictGet patient_id s.patients_db with
  | none => .error .keyError
  | some _ => .ok ("Patient updated successfully",
      { s with patients_db := dictInsert patient_id patient s.patients_db })

/-- DELETE `/patients/{patient_id}`: `del patients_db[patient_id]`; raises
`KeyError` when the key is absent. -/
def delete_patient (patient_id : Int) (s : AppState) :
    Except Err (String × AppState) :=
  match dictGet patient_id s.patients_db with
  | none => .error .keyError
  | some _ => .ok ("Patient deleted successfully",
      { s with patients_db := dictDelete patient_id s.patients_db })

/-- POST `/doctors`: assigns `doctor_id = len(doctors_db) + 1` and stores the
record. -/
def create_doctor (doctor : Doctor) (s : AppState) :
    Except Err (String × Int × AppState) :=
  let doctor_id : Int := (s.doctors_db.length : Int) + 1
  .ok ("Doctor created successfully", doctor_id,
    { s with doctors_db := dictInsert doctor_id doctor s.doctors_db })

/-- PUT `/doctors/{doctor_id}`: replaces every field of the stored record;
`KeyError` when absent. -/
def update_doctor (doctor_id : Int) (doctor : Doctor) (s : AppState) :
    Except Err (String × AppState) :=
  match dictGet doctor_id s.doctors_db with
  | none => .error .keyError
  | some _ => .ok ("Doctor updated successfully",
      { s with doctors_db := dictInsert doctor_id doctor s.doctors_db })

/-- DELETE `/doctors/{doctor_id}`: `del doctors_db[doctor_id]`; `KeyError`
when absent. -/
def delete_doctor (doctor_id : Int) (s : AppState) :
    Except Err (String × AppState) :=
  match dictGet doctor_id s.doctors_db with
  | none => .error .keyError
  | some _ => .ok ("Doctor deleted successfully",
      { s with doctors_db := dictDelete doctor_id s.doctors_db })

/-- POST `/appointments`: scan `doctors_db.items()` in stored order keeping the
ids of doctors whose `is_available` is truthy; fail with HTTP 400 when none,
otherwise take the first id, append the new appointment dict (keys
`patient_id`, `doctor_id`, `date` only — no `id`), and set the chosen
doctor unavailable.  `now` is the value of `datetime.now()`. -/
def create_appointment (patient_id : Int) (now : Nat) (s : AppState) :
    Except Err (String × AppState) :=
  let available_doctors :=
    (s.doctors_db.filter (fun kv => pyTruthy kv.2.is_available)).map (fun kv => kv.1)
  match available_doctors with
  | [] => .error (.httpException 400 "No available doctors at the moment")
  | doctor_id :: _ =>
      let appointment : Appt :=
        { patient_id := patient_id, doctor_id := doctor_id, date := now, id := none }
      .ok ("Appointment created successfully",
        { s with appointments_db := s.appointments_db ++ [appointment],
                 doctors_db := dictSetAvail doctor_id false s.doctors_db })

/-- The generator `next((app for app in appointments_db if app["id"] == aid), None)`:
scans the list in order; evaluating `app["id"]` on a dict without the key
raises `KeyError`, aborting the whole scan. -/
def findByIdKey (aid : Int) : List Appt → Except Err (Option Appt)
  | [] => .ok none
  | a :: rest =>
      match a.id with
      | none => .error .keyError
      | some i => if i = aid then .ok (some a) else findByIdKey aid rest

/-- PUT `/appointments/{appointment_id}/complete`: look the appointment up by
its `"id"` key; 404 when the scan finds nothing; on success set the
referenced doctor available (`KeyError` if that doctor id is absent) and
remove the appointment from the list. -/
def complete_appointment (appointment_id : Int) (s : AppState) :
    Except Err (String × AppState) :=
  match findByIdKey appointment_id s.appointments_db with
  | .error e => .error e
  | .ok none => .error (.httpException 404 "Appointment not found")
  | .ok (some appointment) =>
      match dictGet appointment.doctor_id s.doctors_db with
      | none => .error .keyError
      | some _ =>
          .ok ("Appointment completed successfully",
            { s with doctors_db := dictSetAvail appointment.doctor_id true s.doctors_db,
                     appointments_db := listRemove appointment s.appointments_db })

/-- DELETE `/appointments/{appointment_id}`: same body as
`complete_appointment` except the success message. -/
def cancel_appointment (appointment_id : Int) (s : AppState) :
    Except Err (String × AppState) :=
  match findByIdKey appointment_id s.appointments_db with
  | .error e => .error e
  | .ok none => .error (.httpException 404 "Appointment not found")
  | .ok (some appointment) =>
      match dictGet appointment.doctor_id s.doctors_db with
      | none => .error .keyError
      | some _ =>
          .ok ("Appointment canceled successfully",
            { s with doctors_db := dictSetAvail appointment.doctor_id true s.doctors_db,
                     appointments_db := listRemove appointment s.appointments_db })

/-- PUT `/doctors/{doctor_id}/availability`:
`doctors_db[doctor_id]["is_available"] = is_available`; the subscript on an
absent key raises `KeyError`. -/
def set_doctor_availability (doctor_id : Int) (is_available : Bool) (s : AppState) :
    Except Err (String × AppState) :=
  match dictGet doctor_id s.doctors_db with
  | none => .error .keyError
  | some _ => .ok ("Doctor availability status updated successfully",
      { s with doctors_db := dictSetAvail doctor_id is_available s.doctors_db })

/-- One request against the API, with every argument the handler needs
(`now` stands for the `datetime.now()` read inside `create_appointment`). -/
inductive Op where
  | createPatient (patient : Patient)
  | updatePatient (patient_id : Int) (patient : Patient)
  | deletePatient (patient_id : Int)
  | createDoctor (doctor : Doctor)
  | updateDoctor (doctor_id : Int) (doctor : Doctor)
  | deleteDoctor (doctor_id : Int)
  | setAvailability (doctor_id : Int) (is_available : Bool)
  | createAppt (patient_id : Int) (now : Nat)
  | completeAppt (appointment_id : Int)
  | cancelAppt (appointment_id : Int)
deriving DecidableEq, Repr

/-- Run one request: on success move to the returned state, on any raised
exception the state is unchanged. -/
def runOp (op : Op) (s : AppState) : AppState :=
  match op with
  | .createPatient p => match create_patient p s with
      | .ok (_, _, s') => s' | .error _ => s
  | .updatePatient k p => match update_patient k p s with
      | .ok (_, s') => s' | .error _ => s
  | .deletePatient k => match delete_patient k s with
      | .ok (_, s') => s' | .error _ => s
  | .createDoctor d => match create_doctor d s with
      | .ok (_, _, s') => s' | .error _ => s
  | .updateDoctor k d => match update_doctor k d s with
      | .ok (_, s') => s' | .error _ => s
  | .deleteDoctor k => match delete_doctor k s with
      | .ok (_, s') => s' | .error _ => s
  | .setAvailability k b => match set_doctor_availability k b s with
      | .ok (_, s') => s' | .error _ => s
  | .createAppt pid now => match create_appointment pid now s with
      | .ok (_, s') => s' | .error _ => s
  | .completeAppt aid => match complete_appointment aid s with
      | .ok (_, s') => s' | .error _ => s
  | .cancelAppt aid => match cancel_appointment aid s with
      | .ok (_, s') => s' | .error _ => s

/-- Run a sequence of requests from a starting state. -/
def runOps (ops : List Op) (s : AppState) : AppState :=
  ops.foldl (fun t op => runOp op t) s

/-- Whether a request is one of the three appointment-lifecycle operations
(createAppointment, completeAppointment, cancelAppointment). -/
def Op.isLifecycle : Op → Bool
  | .createAppt _ _ => true
  | .completeAppt _ => true
  | .cancelAppt _ => true
  | _ => false

/-- Whether an endpoint result is a structured NotFound failure, i.e. a
raised `HTTPException` with status 404. -/
def isNotFound : Except Err (String × AppState) → Bool
  | .error (.httpException 404 _) => true
  | _ => false

/-- Run a sequence of POST `/patients` requests, threading the state. -/
def runCreatePatients (ps : List Patient) (s : AppState) : AppState :=
  ps.foldl (fun t p =>
    match create_patient p t with
    | .ok (_, _, t') => t'
    | .error _ => t) s

/-- The ids `1, 2, ..., n` as integers. -/
def seqIds (n : Nat) : List Int := (List.range n).map (fun i => (i : Int) + 1)

/-- No stored appointment dict carries an `"id"` key. -/
def noApptIds (s : AppState) : Prop := ∀ a ∈ s.appointments_db, a.id = none

/-- The bidirectional availability invariant of the spec: every active
appointment references a doctor whose flag is `false`, every doctor whose
flag is `false` is referenced by an active appointment, and the number of
doctors with `is_available == False` equals the number of active
appointments. -/
def availabilityInvariant (s : AppState) : Prop :=
  (∀ a ∈ s.appointments_db,
    ∃ kv ∈ s.doctors_db, kv.1 = a.doctor_id ∧ kv.2.is_available = some false)
  ∧ (∀ kv ∈ s.doctors_db, kv.2.is_available = some false →
      ∃ a ∈ s.appointments_db, a.doctor_id = kv.1)
  ∧ (s.doctors_db.filter (fun kv => kv.2.is_available == some false)).length
      = s.appointments_db.length

/-- A doctor marked available (sample record). -/
def drFree : Doctor :=
  { name := "Dr. A", specialization := "general", phone := "100", is_available := some true }

/-- A doctor marked unavailable (sample record). -/
def drBusy : Doctor :=
  { name := "Dr. B", specialization := "general", phone := "101", is_available := some false }

/-- A sample patient record. -/
def px : Patient :=
  { name := "Ada", age := 30, sex := "F", weight := 70, height := 170, phone := "555" }

/-- A state holding exactly one available doctor under id 1. -/
def oneFreeDoctor : AppState := ⟨[], [(1, drFree)], []⟩

/-- The state after `create_appointment 5 0 oneFreeDoctor`: doctor 1 is now
unavailable and one appointment dict (without an `"id"` key) is stored. -/
def oneApptState : AppState :=
  ⟨[], [(1, { drFree with is_available := some false })],
   [{ patient_id := 5, doctor_id := 1, date := 0, id := none }]⟩

/-- A state holding exactly one patient under id 1. -/
def onePatient : AppState := ⟨[(1, px)], [], []⟩

/-- Truthiness of an `Optional[bool]` agrees with equality to `True`. -/
theorem pyTruthy_eq_beq (o : Option Bool) : pyTruthy o = (o == some true) := by
  cases o with
  | none => rfl
  | some b => cases b <;> rfl

/-- The head of a filtered list is the first element satisfying the
predicate. -/
theorem head_filter_eq_find (p : α → Bool) (l : List α) :
    (l.filter p).head? = l.find? p := by
  induction l with
  | nil => rfl
  | cons a rest ih =>
      by_cases h : p a <;> simp [List.filter_cons, List.find?_cons, h, ih]

/-- If no element of a list satisfies the predicate, the filter is empty. -/
theorem filter_eq_nil_of_none (p : α → Bool) (l : List α)
    (h : ∀ a ∈ l, ¬ p a = true) : l.filter p = [] := by
  induction l with
  | nil => rfl
  | cons a rest ih =>
      have ha := h a (by simp)
      simp only [List.filter_cons]
      rw [if_neg ha]
      exact ih (fun b hb => h b (by simp [hb]))

/-- If some element of a list satisfies the predicate, the filter is
nonempty. -/
theorem filter_ne_nil_of_mem (p : α → Bool) (l : List α) (a : α)
    (ha : a ∈ l) (hp : p a = true) : l.filter p ≠ [] := by
  intro hnil
  have : a ∈ l.filter p := List.mem_filter.mpr ⟨ha, hp⟩
  rw [hnil] at this
  exact absurd this (List.not_mem_nil a)

/-- C4: when no doctor has `is_available == True`, createAppointment fails
with HTTP 400 ("No available doctors at the moment") and the state is
unchanged: nothing is appended to the appointment collection and no record
is mutated. -/
theorem create_appointment_resource_exhausted (s : AppState) (pid : Int) (now : Nat)
    (h : ∀ kv ∈ s.doctors_db, ¬ kv.2.is_available = some true) :
    create_appointment pid now s =
      .error (.httpException 400 "No available doctors at the moment")
    ∧ runOp (.createAppt pid now) s = s := by
  have hf : s.doctors_db.filter (fun kv => pyTruthy kv.2.is_available) = [] := by
    refine filter_eq_nil_of_none _ _ (fun kv hkv => ?_)
    rw [pyTruthy_eq_beq]
    simpa using h kv hkv
  constructor
  · simp [create_appointment, hf]
  · simp [runOp, create_appointment, hf]

/-- C4 witness: in a state whose only doctor is unavailable, the call fails
with the 400 error and leaves the state intact. -/
theorem create_appointment_resource_exhausted_witness :
    create_appointment 7 0 ⟨[], [(1, drBusy)], []⟩ =
      .error (.httpException 400 "No available doctors at the moment")
    ∧ runOp (.createAppt 7 0) ⟨[], [(1, drBusy)], []⟩ = ⟨[], [(1, drBusy)], []⟩ :=
  create_appointment_resource_exhausted ⟨[], [(1, drBusy)], []⟩ 7 0 (by decide)

/-- C3: when the first doctor in stored order with `is_available == True`
is `(k, d)`, createAppointment succeeds and the created appointment
references exactly that doctor id `k`. -/
theorem create_appointment_picks_first_available (s : AppState) (pid : Int) (now : Nat)
    (k : Int) (d : Doctor)
    (h : s.doctors_db.find? (fun kv => kv.2.is_available == some true) = some (k, d)) :
    ∃ s', create_appointment pid now s = .ok ("Appointment created successfully", s')
      ∧ s'.appointments_db = s.appointments_db ++
          [{ patient_id := pid, doctor_id := k, date := now, id := none }] := by
  have hp : (fun kv : Int × Doctor => pyTruthy kv.2.is_available)
      = (fun kv : Int × Doctor => kv.2.is_available == some true) := by
    funext kv
    exact pyTruthy_eq_beq kv.2.is_available
  have hh : (s.doctors_db.filter (fun kv => pyTruthy kv.2.is_available)).head? = some (k, d) := by
    rw [hp, head_filter_eq_find]
    exact h
  cases hfil : s.doctors_db.filter (fun kv => pyTruthy kv.2.is_available) with
  | nil => rw [hfil] at hh; exact absurd hh (by simp)
  | cons kd tail =>
      rw [hfil] at hh
      simp only [List.head?_cons, Option.some.injEq] at hh
      subst hh
      refine ⟨{ s with
          doctors_db := dictSetAvail k false s.doctors_db,
          appointments_db := s.appointments_db ++
            [{ patient_id := pid, doctor_id := k, date := now, id := none }] }, ?_, ?_⟩
      · simp [create_appointment, hfil]
      · simp

/-- C3 witness: with doctors 1 (unavailable), 2 (available), 3 (available)
stored in that order, the appointment goes to doctor 2. -/
theorem create_appointment_picks_first_available_witness :
    ∃ s', create_appointment 4 0 ⟨[], [(1, drBusy), (2, drFree), (3, drFree)], []⟩ =
        .ok ("Appointment created successfully", s')
      ∧ s'.appointments_db = [] ++
          [{ patient_id := 4, doctor_id := 2, date := 0, id := none }] :=
  create_appointment_picks_first_available ⟨[], [(1, drBusy), (2, drFree), (3, drFree)], []⟩
    4 0 2 drFree (by decide)

/-- C5: cancelAppointment is completeAppointment with only the success
message changed: same lookup, same failures, same doctor-availability
restoration, same removal from the active collection. -/
theorem cancel_appointment_eq_complete (aid : Int) (s : AppState) :
    cancel_appointment aid s =
      (complete_appointment aid s).map (fun p => ("Appointment canceled successfully", p.2)) := by
  cases hf : findByIdKey aid s.appointments_db with
  | error e => simp [cancel_appointment, complete_appointment, hf, Except.map]
  | ok o =>
      cases o with
      | none => simp [cancel_appointment, complete_appointment, hf, Except.map]
      | some a =>
          cases hd : dictGet a.doctor_id s.doctors_db with
          | none => simp [cancel_appointment, complete_appointment, hf, hd, Except.map]
          | some v => simp [cancel_appointment, complete_appointment, hf, hd, Except.map]

/-- C2 code-bug evidence: after a successful createAppointment the stored
appointment dict has no `"id"` key, so `complete_appointment` raises
`KeyError` (HTTP 500) for every requested id — it can neither succeed nor
return the specified 404 once any appointment exists. -/
theorem complete_appointment_always_keyError :
    create_appointment 5 0 oneFreeDoctor = .ok ("Appointment created successfully", oneApptState)
    ∧ complete_appointment 1 oneApptState = .error .keyError
    ∧ complete_appointment 2 oneApptState = .error .keyError
    ∧ cancel_appointment 1 oneApptState = .error .keyError := by
  refine ⟨?_, rfl, rfl, rfl⟩
  rfl

/-- Setting the availability of key `k` updates exactly that entry. -/
theorem dictGet_dictSetAvail_self (k : Int) (b : Bool) (l : List (Int × Doctor)) (d : Doctor)
    (h : dictGet k l = some d) :
    dictGet k (dictSetAvail k b l) = some { d with is_available := some b } := by
  induction l with
  | nil => simp [dictGet] at h
  | cons kv rest ih =>
      obtain ⟨k', v⟩ := kv
      by_cases hk : k' = k
      · subst hk
        simp [dictGet] at h
        subst h
        simp [dictGet, dictSetAvail]
      · simp [dictGet, hk] at h
        simp [dictGet, dictSetAvail, hk]
        exact ih h

/-- Setting the availability of key `k` leaves every other key alone. -/
theorem dictGet_dictSetAvail_other (k j : Int) (b : Bool) (l : List (Int × Doctor))
    (h : j ≠ k) : dictGet j (dictSetAvail k b l) = dictGet j l := by
  induction l with
  | nil => rfl
  | cons kv rest ih =>
      obtain ⟨k', v⟩ := kv
      by_cases hk : k' = k
      · have hkj : ¬ k = j := fun hc => h hc.symm
        simp [dictGet, dictSetAvail, hk, hkj]
      · simp [dictGet, dictSetAvail, hk, ih]

/-- Setting the availability flag twice to the same value is the same as
setting it once. -/
theorem dictSetAvail_idem (k : Int) (b : Bool) (l : List (Int × Doctor)) :
    dictSetAvail k b (dictSetAvail k b l) = dictSetAvail k b l := by
  induction l with
  | nil => rfl
  | cons kv rest ih =>
      obtain ⟨k', v⟩ := kv
      by_cases hk : k' = k
      · subst hk
        simp [dictSetAvail]
      · simp [dictSetAvail, hk]
        exact ih

/-- C6 counterexample: on an absent doctor id the availability endpoint does
not return a structured NotFound — it raises an uncaught `KeyError`. -/
theorem set_doctor_availability_absent_counterexample :
    set_doctor_availability 1 true emptyState = .error .keyError
    ∧ isNotFound (set_doctor_availability 1 true emptyState) = false := by
  exact ⟨rfl, rfl⟩

/-- C6 amended: on an absent doctor id, setAvailable raises an uncaught
`KeyError` (HTTP 500), leaving the state unchanged; on a present id it
overwrites only that doctor's `is_available` field (every other key reads
unchanged) and doing it twice equals doing it once. -/
theorem set_doctor_availability_spec (did : Int) (b : Bool) (s : AppState) :
    (dictGet did s.doctors_db = none →
      set_doctor_availability did b s = .error .keyError
      ∧ runOp (.setAvailability did b) s = s)
    ∧ (∀ d, dictGet did s.doctors_db = some d →
        set_doctor_availability did b s =
          .ok ("Doctor availability status updated successfully",
               { s with doctors_db := dictSetAvail did b s.doctors_db })
        ∧ dictGet did (dictSetAvail did b s.doctors_db) = some { d with is_available := some b }
        ∧ (∀ j, j ≠ did → dictGet j (dictSetAvail did b s.doctors_db) = dictGet j s.doctors_db)
        ∧ runOp (.setAvailability did b) (runOp (.setAvailability did b) s)
            = runOp (.setAvailability did b) s) := by
  constructor
  · intro h
    exact ⟨by simp [set_doctor_availability, h], by simp [runOp, set_doctor_availability, h]⟩
  · intro d h
    refine ⟨by simp [set_doctor_availability, h], dictGet_dictSetAvail_self did b _ d h, ?_, ?_⟩
    · intro j hj
      exact dictGet_dictSetAvail_other did j b _ hj
    · have h1 : runOp (.setAvailability did b) s =
          { s with doctors_db := dictSetAvail did b s.doctors_db } := by
        simp [runOp, set_doctor_availability, h]
      have h2 : dictGet did (dictSetAvail did b s.doctors_db) =
          some { d with is_available := some b } :=
        dictGet_dictSetAvail_self did b _ d h
      rw [h1]
      simp [runOp, set_doctor_availability, h2, dictSetAvail_idem]

/-- C6 witness: concrete runs of both branches of the amended contract. -/
theorem set_doctor_availability_spec_witness :
    set_doctor_availability 2 true emptyState = .error .keyError
    ∧ set_doctor_availability 1 false oneFreeDoctor =
        .ok ("Doctor availability status updated successfully",
             { oneFreeDoctor with doctors_db := dictSetAvail 1 false oneFreeDoctor.doctors_db }) :=
  ⟨((set_doctor_availability_spec 2 true emptyState).1 rfl).1,
   ((set_doctor_availability_spec 1 false oneFreeDoctor).2 drFree rfl).1⟩

/-- C8 counterexample: updating or deleting an absent patient id does not
produce a structured NotFound failure — both raise an uncaught `KeyError`. -/
theorem update_delete_patient_absent_counterexample :
    update_patient 1 px emptyState = .error .keyError
    ∧ delete_patient 1 emptyState = .error .keyError
    ∧ isNotFound (update_patient 1 px emptyState) = false
    ∧ isNotFound (delete_patient 1 emptyState) = false := by
  exact ⟨rfl, rfl, rfl, rfl⟩

/-- C8 amended: on an id absent from the patient store, PUT and DELETE both
fail by raising an uncaught `KeyError` (HTTP 500, not a structured
NotFound), and the store is unchanged. -/
theorem update_delete_patient_absent (pid : Int) (p : Patient) (s : AppState)
    (h : dictGet pid s.patients_db = none) :
    update_patient pid p s = .error .keyError
    ∧ delete_patient pid s = .error .keyError
    ∧ runOp (.updatePatient pid p) s = s
    ∧ runOp (.deletePatient pid) s = s := by
  refine ⟨?_, ?_, ?_, ?_⟩ <;> simp [update_patient, delete_patient, runOp, h]

/-- C8 witness: the amended contract at patient id 1 on the empty store. -/
theorem update_delete_patient_absent_witness :
    update_patient 1 px emptyState = .error .keyError
    ∧ delete_patient 1 emptyState = .error .keyError
    ∧ runOp (.updatePatient 1 px) emptyState = emptyState
    ∧ runOp (.deletePatient 1) emptyState = emptyState :=
  update_delete_patient_absent 1 px emptyState rfl

/-- Inserting a fresh key into a dict appends the pair at the end. -/
theorem dictInsert_fresh (k : Int) (v : α) (l : List (Int × α))
    (h : k ∉ l.map Prod.fst) : dictInsert k v l = l ++ [(k, v)] := by
  induction l with
  | nil => rfl
  | cons kv rest ih =>
      obtain ⟨k', v'⟩ := kv
      simp only [List.map_cons, List.mem_cons, not_or] at h
      have hk : ¬ k' = k := fun hc => h.1 hc.symm
      simp [dictInsert, hk, ih h.2]

/-- The ids `1..n+1` are the ids `1..n` followed by `n+1`. -/
theorem seqIds_succ (n : Nat) : seqIds (n + 1) = seqIds n ++ [(n : Int) + 1] := by
  simp [seqIds, List.range_succ]

/-- Every id among `1..n` is at most `n`. -/
theorem mem_seqIds_le (n : Nat) : ∀ x ∈ seqIds n, x ≤ (n : Int) := by
  induction n with
  | zero => intro x hx; simp [seqIds] at hx
  | succ m ih =>
      intro x hx
      rw [seqIds_succ] at hx
      rcases List.mem_append.mp hx with h1 | h2
      · have := ih x h1
        omega
      · have hx1 : x = (m : Int) + 1 := by simpa using h2
        omega

/-- The id the next create assigns is not among the ids `1..n`. -/
theorem next_id_fresh (n : Nat) : ((n : Int) + 1) ∉ seqIds n := by
  intro hmem
  have := mem_seqIds_le n _ hmem
  omega

/-- In a store whose keys read `1..len` in order, a run of creates keeps the
keys reading `1..len` and grows the store by one record per create. -/
theorem runCreatePatients_keys (ps : List Patient) (s : AppState)
    (h : s.patients_db.map Prod.fst = seqIds s.patients_db.length) :
    (runCreatePatients ps s).patients_db.map Prod.fst
      = seqIds ((runCreatePatients ps s).patients_db.length)
    ∧ (runCreatePatients ps s).patients_db.length = s.patients_db.length + ps.length := by
  induction ps generalizing s with
  | nil => exact ⟨h, rfl⟩
  | cons p rest ih =>
      have hfresh : ((s.patients_db.length : Int) + 1) ∉ s.patients_db.map Prod.fst := by
        rw [h]
        exact next_id_fresh s.patients_db.length
      have hins : dictInsert ((s.patients_db.length : Int) + 1) p s.patients_db
          = s.patients_db ++ [((s.patients_db.length : Int) + 1, p)] :=
        dictInsert_fresh _ _ _ hfresh
      have hstep : runCreatePatients (p :: rest) s = runCreatePatients rest
          { s with
            patients_db := s.patients_db ++ [((s.patients_db.length : Int) + 1, p)] } := by
        show runCreatePatients rest
            { s with
              patients_db := dictInsert ((s.patients_db.length : Int) + 1) p s.patients_db }
          = runCreatePatients rest
            { s with
              patients_db := s.patients_db ++ [((s.patients_db.length : Int) + 1, p)] }
        rw [hins]
      rw [hstep]
      have hinv : (s.patients_db ++ [((s.patients_db.length : Int) + 1, p)]).map Prod.fst
          = seqIds (s.patients_db ++ [((s.patients_db.length : Int) + 1, p)]).length := by
        simp only [List.map_append, List.length_append, List.map_cons, List.map_nil,
          List.length_cons, List.length_nil]
        rw [h, seqIds_succ]
      obtain ⟨h1, h2⟩ := ih
        { s with
          patients_db := s.patients_db ++ [((s.patients_db.length : Int) + 1, p)] } hinv
      refine ⟨h1, ?_⟩
      rw [h2]
      simp only [List.length_append, List.length_cons, List.length_nil]
      omega

/-- C7 counterexample: a created patient gets id 1, is deleted, and the very
next create assigns id 1 again — the id of a deleted record is reused. -/
theorem patient_id_reused_after_delete :
    create_patient px emptyState = .ok ("Patient created successfully", 1, onePatient)
    ∧ delete_patient 1 onePatient = .ok ("Patient deleted successfully", emptyState)
    ∧ create_patient px emptyState = .ok ("Patient created successfully", 1, onePatient) :=
  ⟨rfl, rfl, rfl⟩

/-- C7 amended: every create assigns `id = current collection size + 1`, a
positive id, and in delete-free runs from the empty store the assigned ids
are exactly the sequential integers `1..n`; once a record is deleted,
however, its id can be reassigned (see the counterexample). -/
theorem create_patient_sequential_ids (s : AppState) (p : Patient) (ps : List Patient) :
    create_patient p s = .ok ("Patient created successfully",
      (s.patients_db.length : Int) + 1,
      { s with patients_db := dictInsert ((s.patients_db.length : Int) + 1) p s.patients_db })
    ∧ 0 < (s.patients_db.length : Int) + 1
    ∧ (runCreatePatients ps emptyState).patients_db.map Prod.fst = seqIds ps.length := by
  refine ⟨rfl, by omega, ?_⟩
  obtain ⟨h1, h2⟩ := runCreatePatients_keys ps emptyState rfl
  rw [h1, h2]
  simp [emptyState]

/-- On a state whose stored appointments all lack an `"id"` key,
completeAppointment never changes the state: it 404s on an empty collection
and raises `KeyError` otherwise. -/
theorem runOp_complete_no_ids (aid : Int) (s : AppState) (h : noApptIds s) :
    runOp (.completeAppt aid) s = s := by
  cases hl : s.appointments_db with
  | nil => simp [runOp, complete_appointment, findByIdKey, hl]
  | cons a rest =>
      have ha : a.id = none := h a (by rw [hl]; simp)
      simp [runOp, complete_appointment, findByIdKey, hl, ha]

/-- Same as `runOp_complete_no_ids` for cancelAppointment. -/
theorem runOp_cancel_no_ids (aid : Int) (s : AppState) (h : noApptIds s) :
    runOp (.cancelAppt aid) s = s := by
  cases hl : s.appointments_db with
  | nil => simp [runOp, cancel_appointment, findByIdKey, hl]
  | cons a rest =>
      have ha : a.id = none := h a (by rw [hl]; simp)
      simp [runOp, cancel_appointment, findByIdKey, hl, ha]

/-- Every request preserves the property that no stored appointment has an
`"id"` key. -/
theorem noApptIds_runOp (op : Op) (s : AppState) (h : noApptIds s) :
    noApptIds (runOp op s) := by
  cases op with
  | createPatient p => simpa [noApptIds, runOp, create_patient] using h
  | updatePatient k p =>
      cases hg : dictGet k s.patients_db with
      | none => simpa [noApptIds, runOp, update_patient, hg] using h
      | some v => simpa [noApptIds, runOp, update_patient, hg] using h
  | deletePatient k =>
      cases hg : dictGet k s.patients_db with
      | none => simpa [noApptIds, runOp, delete_patient, hg] using h
      | some v => simpa [noApptIds, runOp, delete_patient, hg] using h
  | createDoctor d => simpa [noApptIds, runOp, create_doctor] using h
  | updateDoctor k d =>
      cases hg : dictGet k s.doctors_db with
      | none => simpa [noApptIds, runOp, update_doctor, hg] using h
      | some v => simpa [noApptIds, runOp, update_doctor, hg] using h
  | deleteDoctor k =>
      cases hg : dictGet k s.doctors_db with
      | none => simpa [noApptIds, runOp, delete_doctor, hg] using h
      | some v => simpa [noApptIds, runOp, delete_doctor, hg] using h
  | setAvailability k b =>
      cases hg : dictGet k s.doctors_db with
      | none => simpa [noApptIds, runOp, set_doctor_availability, hg] using h
      | some v => simpa [noApptIds, runOp, set_doctor_availability, hg] using h
  | createAppt pid now =>
      cases hfil : (s.doctors_db.filter
          (fun kv => pyTruthy kv.2.is_available)).map (fun kv => kv.1) with
      | nil => simpa [noApptIds, runOp, create_appointment, hfil] using h
      | cons did rest =>
          have hrun : runOp (.createAppt pid now) s = { s with
              doctors_db := dictSetAvail did false s.doctors_db,
              appointments_db := s.appointments_db ++
                [{ patient_id := pid, doctor_id := did, date := now, id := none }] } := by
            simp [runOp, create_appointment, hfil]
          rw [hrun]
          intro a ha
          rcases List.mem_append.mp ha with h1 | h2
          · exact h a h1
          · have : a = { patient_id := pid, doctor_id := did, date := now, id := none } := by
              simpa using h2
            rw [this]
  | completeAppt aid =>
      rw [runOp_complete_no_ids aid s h]
      exact h
  | cancelAppt aid =>
      rw [runOp_cancel_no_ids aid s h]
      exact h

/-- Any run of requests from the empty state leaves every stored appointment
without an `"id"` key. -/
theorem noApptIds_runOps (ops : List Op) (s : AppState) (h : noApptIds s) :
    noApptIds (runOps ops s) := by
  induction ops generalizing s with
  | nil => exact h
  | cons op rest ih => exact ih (runOp op s) (noApptIds_runOp op s h)

/-- C9: every appointment record createAppointment appends carries exactly
`patient_id`, `doctor_id` and `date` — its `"id"` key is never present —
and in every state reachable from empty by any request sequence, every
stored appointment lacks an `"id"` key (even though the lifecycle lookups
read one). -/
theorem appointment_records_have_no_id (ops : List Op) :
    (∀ a ∈ (runOps ops emptyState).appointments_db, a.id = none)
    ∧ ∀ pid now s msg s', create_appointment pid now s = .ok (msg, s') →
        ∃ did, s'.appointments_db = s.appointments_db ++
          [{ patient_id := pid, doctor_id := did, date := now, id := none }] := by
  constructor
  · exact noApptIds_runOps ops emptyState (fun a ha => by simp [emptyState] at ha)
  · intro pid now s msg s' hok
    cases hfil : (s.doctors_db.filter
        (fun kv => pyTruthy kv.2.is_available)).map (fun kv => kv.1) with
    | nil =>
        rw [create_appointment] at hok
        simp [hfil] at hok
    | cons did rest =>
        refine ⟨did, ?_⟩
        rw [create_appointment] at hok
        simp only [hfil] at hok
        cases hok
        simp

/-- C9 witness: the concrete appointment appended by a successful create has
no `"id"` key. -/
theorem appointment_records_have_no_id_witness :
    ∃ did, oneApptState.appointments_db = oneFreeDoctor.appointments_db ++
      [{ patient_id := 5, doctor_id := did, date := 0, id := none }] :=
  (appointment_records_have_no_id []).2 5 0 oneFreeDoctor
    "Appointment created successfully" oneApptState rfl

/-- C10: createAppointment never consults the patient store — with the
patient collection replaced by anything at all, the call still succeeds as
soon as some doctor has `is_available == True`, and the created appointment
carries the requested `patient_id` unchecked. -/
theorem create_appointment_ignores_patient_store (pid : Int) (now : Nat) (s : AppState)
    (q : List (Int × Patient))
    (h : ∃ kv ∈ s.doctors_db, kv.2.is_available = some true) :
    ∃ did s', create_appointment pid now { s with patients_db := q }
        = .ok ("Appointment created successfully", s')
      ∧ s'.appointments_db = s.appointments_db ++
          [{ patient_id := pid, doctor_id := did, date := now, id := none }]
      ∧ s'.patients_db = q := by
  obtain ⟨kv, hmem, hav⟩ := h
  have hp : pyTruthy kv.2.is_available = true := by rw [hav]; rfl
  have hne : s.doctors_db.filter (fun x => pyTruthy x.2.is_available) ≠ [] :=
    filter_ne_nil_of_mem _ _ kv hmem hp
  cases hfil : s.doctors_db.filter (fun x => pyTruthy x.2.is_available) with
  | nil => exact absurd hfil hne
  | cons kd tail =>
      refine ⟨kd.1,
        { patients_db := q,
          doctors_db := dictSetAvail kd.1 false s.doctors_db,
          appointments_db := s.appointments_db ++
            [{ patient_id := pid, doctor_id := kd.1, date := now, id := none }] },
        ?_, by simp, rfl⟩
      simp [create_appointment, hfil]

/-- C10 witness: with an empty patient store and patient id 9 (no such
patient exists), the call still succeeds and records patient 9. -/
theorem create_appointment_ignores_patient_store_witness :
    ∃ did s', create_appointment 9 3 { oneFreeDoctor with patients_db := [] }
        = .ok ("Appointment created successfully", s')
      ∧ s'.appointments_db = oneFreeDoctor.appointments_db ++
          [{ patient_id := 9, doctor_id := did, date := 3, id := none }]
      ∧ s'.patients_db = [] :=
  create_appointment_ignores_patient_store 9 3 oneFreeDoctor [] (by decide)

/-- On the empty state every appointment-lifecycle request is a no-op:
createAppointment 400s (no doctors at all), completeAppointment and
cancelAppointment 404 (no appointments at all). -/
theorem runOp_lifecycle_emptyState (op : Op) (h : op.isLifecycle = true) :
    runOp op emptyState = emptyState := by
  cases op <;> first
    | rfl
    | simp [Op.isLifecycle] at h

/-- A sequence of lifecycle-only requests started from the empty state never
leaves the empty state. -/
theorem runOps_lifecycle_emptyState (ops : List Op)
    (h : ∀ op ∈ ops, op.isLifecycle = true) :
    runOps ops emptyState = emptyState := by
  induction ops with
  | nil => rfl
  | cons op rest ih =>
      have h1 : runOp op emptyState = emptyState :=
        runOp_lifecycle_emptyState op (h op (by simp))
      have h2 : ∀ o ∈ rest, o.isLifecycle = true := fun o ho => h o (by simp [ho])
      calc runOps (op :: rest) emptyState = runOps rest (runOp op emptyState) := rfl
        _ = runOps rest emptyState := by rw [h1]
        _ = emptyState := ih h2

/-- C1: after every prefix of a sequence of createAppointment,
completeAppointment and cancelAppointment requests run from the empty
state, an appointment exists exactly when the doctor it references has
`is_available == False`, and the count of such doctors equals the count of
active appointments. -/
theorem lifecycle_availability_invariant (ops : List Op)
    (h : ∀ op ∈ ops, op.isLifecycle = true) :
    availabilityInvariant (runOps ops emptyState) := by
  rw [runOps_lifecycle_emptyState ops h]
  exact ⟨by simp [emptyState], by simp [emptyState], by simp [emptyState]⟩

/-- C1 witness: a concrete lifecycle-only request sequence satisfies the
invariant. -/
theorem lifecycle_availability_invariant_witness :
    availabilityInvariant
      (runOps [Op.createAppt 1 0, Op.completeAppt 1, Op.cancelAppt 2] emptyState) :=
  lifecycle_availability_invariant
    [Op.createAppt 1 0, Op.completeAppt 1, Op.cancelAppt 2] (by decide)
